import Mathlib

/-!
Verification development for the MindDoc backend (Flask + spaCy + textstat).

The Python sources are shallowly embedded: pure computations become Lean
functions, library calls (spaCy, textstat, the network) become oracle
parameters, the two in-memory dictionaries of the Flask app become an
explicit `AppState`, and the background worker thread body becomes a total
state-transition function.  Machine floats of `textstat` are modelled by `Rat`.
-/

namespace MindDoc

/-! ### Python string primitives -/

/-- Python `str.lower()` (restricted to per-character lowering, which is
what the filenames and extensions in this app exercise). -/
def pyLower (s : String) : String := ⟨s.data.map Char.toLower⟩

/-- Truthiness of Python `text.strip()`: the stripped string is non-empty
iff some character is not whitespace. -/
def pyStripTruthy (s : String) : Bool := s.data.any (fun c => !c.isWhitespace)

/-- Python `str.strip()`: drop whitespace from both ends. -/
def pyStrip (s : String) : String :=
  ⟨((s.data.dropWhile Char.isWhitespace).reverse.dropWhile Char.isWhitespace).reverse⟩

/-- Helper for `pyWordCount`: count maximal non-whitespace runs; the flag
records whether the previous character belonged to a word. -/
def wordCountAux : Bool → List Char → Nat
  | _, [] => 0
  | inWord, c :: cs =>
    if c.isWhitespace then wordCountAux false cs
    else (if inWord then 0 else 1) + wordCountAux true cs

/-- Python `len(text.split())`: `str.split()` with no argument splits on
whitespace runs and drops empty tokens, so this is the number of maximal
non-whitespace runs. -/
def pyWordCount (s : String) : Nat := wordCountAux false s.data

/-- Split a character list at every occurrence of `sep`, keeping empty
pieces, as Python `text.split(sep)` does. -/
def splitOnChar (sep : Char) : List Char → List (List Char)
  | [] => [[]]
  | c :: cs =>
    if c = sep then [] :: splitOnChar sep cs
    else
      match splitOnChar sep cs with
      | [] => [[c]]
      | w :: ws => (c :: w) :: ws

/-- The characters after the last dot of the list, `none` when no dot occurs.
This is `filename.rsplit(".", 1)[1]` guarded by `"." in filename`. -/
def afterLastDot : List Char → Option (List Char)
  | [] => none
  | c :: cs =>
    match afterLastDot cs with
    | some r => some r
    | none => if c = '.' then some cs else none

/-- Python list indexing `l[i]` for `int` indices: non-negative indices count
from the front, negative indices count from the back, anything else raises
(modelled as `none`). -/
def pyListIndex (len : Nat) (i : Int) : Option Nat :=
  if 0 ≤ i then (if i < (len : Int) then some i.toNat else none)
  else (if 0 ≤ (len : Int) + i then some ((len : Int) + i).toNat else none)

/-- Python `l[i]` as a lookup. -/
def pyGet (l : List α) (i : Int) : Option α :=
  (pyListIndex l.length i).bind (fun n => l[n]?)

/-! ### Oracles for the NLP libraries

`spacy` and `textstat` are outside libraries: their outputs on a given text
are inputs of the embedding.  `flesch` is `textstat.flesch_reading_ease`,
`ents` the named entities `(ent.text, ent.label_)` of the spaCy doc, and
`deps` the dependency tag `token.dep_` of each token of the spaCy doc. -/

structure NlpModel where
  flesch : String → Rat
  ents : String → List (String × String)
  deps : String → List String

/-! ### Records of the data model -/

/-- One entry of `results["paragraph_analyses"]`.  `paragraph_index` is an
`Int` because `/api/update-paragraph` can write a negative index into it. -/
structure ParagraphAnalysis where
  paragraph_index : Int
  text : String
  word_count : Nat
  readability : Rat
  entities : List (String × String)
  comments : List String
deriving DecidableEq, Repr, Inhabited

/-- The record built by `DocumentProcessor._generate_overall_analysis`. -/
structure OverallAnalysis where
  total_paragraphs : Nat
  total_words : Nat
  average_readability : Rat
  total_entities : Nat
  overall_score : Rat
deriving DecidableEq, Repr, Inhabited

/-- The record returned by `DifyService.analyze_document_with_dify` /
`_process_dify_response`: `error` is present on the failure shapes,
`raw_response` on the success shape. -/
structure DifyResult where
  error : Option String
  suggestions : List String
  raw_response : Option String
deriving DecidableEq, Repr, Inhabited

/-- The results record stored in `app.analysis_results`.  `dify_analysis` is
`none` for the record stored by `process_document` and `some` for the
combined record stored by the worker thread. -/
structure Results where
  job_id : String
  file_path : String
  paragraph_analyses : List ParagraphAnalysis
  overall_analysis : OverallAnalysis
  status : String
  created_at : String
  dify_analysis : Option DifyResult
deriving DecidableEq, Repr, Inhabited

/-- The record stored in `app.processing_status` by the two
`_update_status` methods: exactly the three fields status, message,
timestamp. -/
structure StatusRecord where
  status : String
  message : String
  timestamp : String
deriving DecidableEq, Repr, Inhabited

/-- The two in-memory dictionaries of the Flask app object. -/
structure AppState where
  processing_status : String → Option StatusRecord
  analysis_results : String → Option Results

/-- Dictionary write `m[k] = v`. -/
def updMap (m : String → Option α) (k : String) (v : α) : String → Option α :=
  fun k' => if k' = k then some v else m k'

/-- The app state with both dictionaries empty. -/
def emptyState : AppState := ⟨fun _ => none, fun _ => none⟩

/-- The values `datetime.now().isoformat()` produces at the successive call
sites of one worker-thread run; the wall clock is an oracle. -/
structure Times where
  tProcessing : String
  tCreated : String
  tCompleted : String
  tFailedInner : String
  tFailedOuter : String

/-! ### DocumentProcessor -/

/-- The comment text appended when `passive_count > 0`. -/
def passiveComment (passiveCount : Nat) : String :=
  "Consider using active voice instead of passive voice (" ++
    toString passiveCount ++ " instances)."

/-- Number of tokens whose dependency tag is `nsubjpass`. -/
def passiveCountOf (nlp : NlpModel) (text : String) : Nat :=
  ((nlp.deps text).filter (fun d => d = "nsubjpass")).length

/-- `DocumentProcessor._analyze_single_paragraph` (success path): word count,
readability, entities, then the three conditional comments in source order. -/
def analyzeSingleParagraph (nlp : NlpModel) (text : String) (index : Int) :
    ParagraphAnalysis :=
  let wc := pyWordCount text
  let readability := nlp.flesch text
  let shortComments :=
    if wc < 10 then ["This paragraph is quite short. Consider adding more detail."] else []
  let readComments :=
    if readability < 30 then
      ["This paragraph is difficult to read. Consider simplifying the language."]
    else []
  let pc := passiveCountOf nlp text
  let passiveComments := if 0 < pc then [passiveComment pc] else []
  { paragraph_index := index
    text := text
    word_count := wc
    readability := readability
    entities := nlp.ents text
    comments := shortComments ++ readComments ++ passiveComments }

/-- Loop body of `DocumentProcessor._analyze_paragraphs`: enumerate the
paragraphs of the document, keep those whose stripped text is truthy, and
analyze each with its enumeration index. -/
def analyzeParagraphsFrom (nlp : NlpModel) : Nat → List String → List ParagraphAnalysis
  | _, [] => []
  | i, t :: ts =>
    if pyStripTruthy t then
      analyzeSingleParagraph nlp t (i : Int) :: analyzeParagraphsFrom nlp (i + 1) ts
    else
      analyzeParagraphsFrom nlp (i + 1) ts

/-- `DocumentProcessor._analyze_paragraphs`, applied to the texts of
`doc.paragraphs`. -/
def analyzeParagraphs (nlp : NlpModel) (paragraphTexts : List String) :
    List ParagraphAnalysis :=
  analyzeParagraphsFrom nlp 0 paragraphTexts

/-- `DocumentProcessor._generate_overall_analysis` (normal path). -/
def generateOverallAnalysis (ps : List ParagraphAnalysis) : OverallAnalysis :=
  let total_words := (ps.map (fun p => p.word_count)).sum
  let avg_readability : Rat :=
    if ps = [] then 0 else (ps.map (fun p => p.readability)).sum / (ps.length : Rat)
  let total_entities := (ps.map (fun p => p.entities.length)).sum
  { total_paragraphs := ps.length
    total_words := total_words
    average_readability := avg_readability
    total_entities := total_entities
    overall_score := min 100 (max 0 avg_readability) }

/-- The record returned by the `except` branch of
`_generate_overall_analysis`. -/
def generateOverallAnalysisFallback (ps : List ParagraphAnalysis) : OverallAnalysis :=
  { total_paragraphs := ps.length
    total_words := 0
    average_readability := 0
    total_entities := 0
    overall_score := 0 }

/-- `DocumentProcessor._update_status` and `EventManager._update_status`
(identical bodies): write the three-field record into
`app.processing_status`. -/
def updateStatus (st : AppState) (jobId status message timestamp : String) : AppState :=
  { st with
    processing_status := updMap st.processing_status jobId
      ⟨status, message, timestamp⟩ }

/-- `DocumentProcessor.process_document`.  Opening the `.docx` file and the
paragraph iteration can raise; the oracle `docResult` is either the list of
paragraph texts of the document or the text of the raised exception.  On
failure the method records a failed status and re-raises the same
exception (the `Except.error`). -/
def processDocument (nlp : NlpModel) (docResult : Except String (List String))
    (filePath jobId : String) (tm : Times) (st : AppState) :
    Except String Results × AppState :=
  let st1 := updateStatus st jobId "processing" "Starting analysis..." tm.tProcessing
  match docResult with
  | .error e =>
    (.error e, updateStatus st1 jobId "failed" ("Analysis failed: " ++ e) tm.tFailedInner)
  | .ok texts =>
    let pas := analyzeParagraphs nlp texts
    let oa := generateOverallAnalysis pas
    let results : Results :=
      { job_id := jobId
        file_path := filePath
        paragraph_analyses := pas
        overall_analysis := oa
        status := "completed"
        created_at := tm.tCreated
        dify_analysis := none }
    let st2 := { st1 with analysis_results := updMap st1.analysis_results jobId results }
    let st3 := updateStatus st2 jobId "completed" "Analysis completed" tm.tCompleted
    (.ok results, st3)

/-! ### DifyService -/

/-- Outcome of the `requests.post` call to the Dify API: an HTTP response
with its status code, JSON `answer` field and raw text, a timeout, a
network-level failure, or any other exception. -/
inductive NetOutcome
  | response (statusCode : Nat) (answer : String) (text : String)
  | timeout
  | requestError (e : String)
  | otherError (e : String)

/-- Python truthiness of `app.config.get("DIFY_API_KEY")`: configured iff
present and non-empty. -/
def isConfigured : Option String → Bool
  | none => false
  | some k => !(k == "")

/-- `DifyService._process_dify_response`: keep the stripped lines starting
with a dash or bullet, with that marker dropped and the rest re-stripped,
when the remainder is non-empty. -/
def processDifyResponse (answer : String) : DifyResult :=
  let lines := (splitOnChar '\n' answer.data).map (fun l => pyStrip ⟨l⟩)
  let suggestions := lines.filterMap (fun line =>
    match line.data with
    | [] => none
    | c :: rest =>
      if c = '-' ∨ c = '•' then
        let suggestion := pyStrip ⟨rest⟩
        if suggestion ≠ "" then some suggestion else none
      else none)
  { error := none, suggestions := suggestions, raw_response := some answer }

/-- The record returned when no API key is configured. -/
def difyNotConfigured : DifyResult :=
  { error := some "Dify API key not configured", suggestions := [], raw_response := none }

/-- `DifyService.analyze_document_with_dify`.  The second component counts
the network requests performed.  With no configured key the method returns
the fixed error record without touching the network; otherwise the oracle
`net` decides the outcome and every failure is converted into an error
record (the method never raises). -/
def analyzeDocumentWithDify (apiKey : Option String) (net : NetOutcome)
    (_document_data : Results) : DifyResult × Nat :=
  if isConfigured apiKey = false then
    (difyNotConfigured, 0)
  else
    match net with
    | .response 200 answer _ => (processDifyResponse answer, 1)
    | .response code _ text =>
      ({ error := some ("Dify API error: " ++ toString code ++ " - " ++ text)
         suggestions := [], raw_response := none }, 1)
    | .timeout =>
      ({ error := some "API request timed out", suggestions := [], raw_response := none }, 1)
    | .requestError e =>
      ({ error := some ("Network error: " ++ e), suggestions := [], raw_response := none }, 1)
    | .otherError e =>
      ({ error := some e, suggestions := [], raw_response := none }, 1)

/-! ### EventManager -/

/-- The body of the worker thread spawned by
`EventManager.start_document_processing`.  It is a total function on the
app state: every exception of the processing step is caught and turned
into a failed status record, so nothing propagates out of the thread.  The
second component counts how many times `process_document` was invoked
(always exactly one: there is no retry). -/
def threadBody (nlp : NlpModel) (apiKey : Option String) (net : NetOutcome)
    (docResult : Except String (List String)) (filePath jobId : String)
    (tm : Times) (st : AppState) : AppState × Nat :=
  match processDocument nlp docResult filePath jobId tm st with
  | (.ok results, st1) =>
    let dify_results := (analyzeDocumentWithDify apiKey net results).1
    let combined := { results with dify_analysis := some dify_results }
    ({ st1 with analysis_results := updMap st1.analysis_results jobId combined }, 1)
  | (.error e, st1) =>
    (updateStatus st1 jobId "failed" ("Processing failed: " ++ e) tm.tFailedOuter, 1)

/-- `EventManager.get_status`: the stored record, or the two-field sentinel
dict when the job id is unknown.  The response is rendered as the ordered
field list of the JSON object. -/
def statusFields (r : StatusRecord) : List (String × String) :=
  [("status", r.status), ("message", r.message), ("timestamp", r.timestamp)]

/-- The sentinel dict returned for an unknown job id. -/
def sentinelStatus : List (String × String) :=
  [("status", "unknown"), ("message", "Job not found")]

/-- `EventManager.get_status`. -/
def get_status (st : AppState) (jobId : String) : List (String × String) :=
  match st.processing_status jobId with
  | some r => statusFields r
  | none => sentinelStatus

/-- `EventManager.get_results`: `analysis_results.get(job_id, {})`, with the
empty-dict default modelled as `none`. -/
def get_results (st : AppState) (jobId : String) : Option Results :=
  st.analysis_results jobId

/-! ### Routes -/

/-- `GET /status/(job_id)`: body of the JSON response and the HTTP status. -/
def get_processing_status (st : AppState) (jobId : String) :
    List (String × String) × Nat :=
  (get_status st jobId, 200)

/-- Body of the `GET /analysis/(job_id)` response. -/
inductive AnalysisResponse
  | err (message : String)
  | ok (results : Results)
deriving DecidableEq, Repr

/-- `GET /analysis/(job_id)`: a stored record is returned unchanged with
200; `get_results` yielding the empty record (Python falsy) gives 404. -/
def get_analysis_results (st : AppState) (jobId : String) : AnalysisResponse × Nat :=
  match get_results st jobId with
  | none => (.err "Analysis results not found", 404)
  | some r => (.ok r, 200)

/-- `allowed_file` of the upload route: a dot occurs and the lowered part
after the last dot is the one allowed extension `docx`. -/
def allowed_file (filename : String) : Bool :=
  match afterLastDot filename.data with
  | none => false
  | some ext => (ext.map Char.toLower) = "docx".data

/-- Outcome of `POST /upload`: HTTP status, error body when present, and
whether a job id was generated and background processing started. -/
structure UploadResponse where
  httpStatus : Nat
  error : Option String
  jobGenerated : Bool
  processingStarted : Bool
deriving DecidableEq, Repr

/-- `upload_document`: the input is the filename of the uploaded file part,
`none` when the request carries no file part. -/
def upload_document (filePart : Option String) : UploadResponse :=
  match filePart with
  | none => ⟨400, some "No file provided", false, false⟩
  | some filename =>
    if filename = "" then ⟨400, some "No file selected", false, false⟩
    else if allowed_file filename then ⟨200, none, true, true⟩
    else ⟨400, some "Invalid file type. Only .docx files are allowed.", false, false⟩

/-- Outcome of `POST /api/update-paragraph`. -/
structure ApiResponse where
  httpStatus : Nat
  success : Bool
  error : Option String
deriving DecidableEq, Repr

/-- `update_paragraph`: validate the fields, look the job up, and when
`paragraph_id < len(paragraph_analyses)` mutate the list element at that
Python index in place (the stored dict is aliased, so the mutation lands in
`app.analysis_results`): its text is set and then the whole record is
replaced by the re-analysis of the new text at index `paragraph_id`.  A
negative index beyond the front raises `IndexError`, caught as a 500. -/
def update_paragraph (nlp : NlpModel) (st : AppState)
    (paragraphId : Option Int) (newText jobId : String) : ApiResponse × AppState :=
  match paragraphId with
  | none => (⟨400, false, some "Missing required fields"⟩, st)
  | some pid =>
    if newText = "" ∨ jobId = "" then
      (⟨400, false, some "Missing required fields"⟩, st)
    else
      match st.analysis_results jobId with
      | none => (⟨404, false, some "Analysis results not found"⟩, st)
      | some results =>
        if pid < (results.paragraph_analyses.length : Int) then
          match pyListIndex results.paragraph_analyses.length pid with
          | none => (⟨500, false, some "Internal server error"⟩, st)
          | some n =>
            let updated := analyzeSingleParagraph nlp newText pid
            let newResults :=
              { results with
                paragraph_analyses := results.paragraph_analyses.set n updated }
            (⟨200, true, none⟩,
             { st with analysis_results := updMap st.analysis_results jobId newResults })
        else
          (⟨400, false, some "Invalid paragraph ID"⟩, st)

/-! ### Concrete witnesses for the oracles and states -/

/-- A concrete NLP oracle used for evaluations: constant readability 50,
one entity, and one passive-voice token per text. -/
def nlpW : NlpModel :=
  { flesch := fun _ => 50
    ents := fun _ => [("Lean", "PRODUCT")]
    deps := fun _ => ["nsubjpass", "det"] }

/-- A concrete timestamp predicate for evaluations. -/
def Pw (s : String) : Prop := s = "T"

/-- A concrete clock for evaluations. -/
def tmW : Times := ⟨"T", "T", "T", "T", "T"⟩

/-- A concrete stored status record. -/
def statusW : StatusRecord := ⟨"processing", "Starting analysis...", "T"⟩

/-- A state holding one status record. -/
def stStatusW : AppState :=
  { emptyState with
    processing_status := updMap emptyState.processing_status "job1" statusW }

/-- Two concrete paragraph analyses. -/
def paW0 : ParagraphAnalysis := analyzeSingleParagraph nlpW "first paragraph text here" 0

/-- Second concrete paragraph analysis. -/
def paW1 : ParagraphAnalysis := analyzeSingleParagraph nlpW "second paragraph text here" 1

/-- A concrete stored results record with two paragraph analyses. -/
def resultsW : Results :=
  { job_id := "job1"
    file_path := "up.docx"
    paragraph_analyses := [paW0, paW1]
    overall_analysis := generateOverallAnalysis [paW0, paW1]
    status := "completed"
    created_at := "T"
    dify_analysis := none }

/-- A state holding one results record. -/
def stResultsW : AppState :=
  { emptyState with
    analysis_results := updMap emptyState.analysis_results "job1" resultsW }

/-! ### Claim theorems -/

/-- C2: for every list of paragraph analyses the overall analysis averages
the per-paragraph scores: `average_readability` is the sum of the
readability values divided by the number of paragraph analyses when the
list is non-empty and 0 when it is empty, `total_words` the sum of the
word counts, `total_entities` the sum of the entity-list lengths, and
`total_paragraphs` the length of the list. -/
theorem overall_analysis_averages (ps : List ParagraphAnalysis) :
    (generateOverallAnalysis ps).average_readability =
      (if ps = [] then 0 else (ps.map (fun p => p.readability)).sum / (ps.length : Rat)) ∧
    (generateOverallAnalysis ps).total_words = (ps.map (fun p => p.word_count)).sum ∧
    (generateOverallAnalysis ps).total_entities =
      (ps.map (fun p => p.entities.length)).sum ∧
    (generateOverallAnalysis ps).total_paragraphs = ps.length :=
  ⟨rfl, rfl, rfl, rfl⟩

/-- C10: the overall score always lies in the closed interval [0, 100]; on
the normal path it equals `min 100 (max 0 average_readability)` and on the
error-fallback path it is 0. -/
theorem overall_score_bounded (ps : List ParagraphAnalysis) :
    0 ≤ (generateOverallAnalysis ps).overall_score ∧
    (generateOverallAnalysis ps).overall_score ≤ 100 ∧
    (generateOverallAnalysis ps).overall_score =
      min 100 (max 0 (generateOverallAnalysis ps).average_readability) ∧
    (generateOverallAnalysisFallback ps).overall_score = 0 := by
  refine ⟨?_, ?_, rfl, rfl⟩
  · exact le_min (by norm_num) (le_max_left 0 _)
  · exact min_le_left _ _

/-- C4: `GET /status/(job_id)` returns the fixed two-field sentinel with
HTTP 200 when the job id has no entry in the processing-status mapping,
and the stored record with HTTP 200 when it has one. -/
theorem status_route_sentinel (st : AppState) (jobId : String) :
    (st.processing_status jobId = none →
      get_processing_status st jobId = (sentinelStatus, 200)) ∧
    (∀ r, st.processing_status jobId = some r →
      get_processing_status st jobId = (statusFields r, 200)) := by
  constructor
  · intro h
    simp [get_processing_status, get_status, h]
  · intro r h
    simp [get_processing_status, get_status, h]

/-- Witness for C4 at concrete states: an unknown job id yields the
sentinel, a stored record is returned as is. -/
theorem status_route_sentinel_witness :
    get_processing_status emptyState "missing" = (sentinelStatus, 200) ∧
    get_processing_status stStatusW "job1" = (statusFields statusW, 200) :=
  ⟨(status_route_sentinel emptyState "missing").1 rfl,
   (status_route_sentinel stStatusW "job1").2 statusW rfl⟩

/-- C9: `GET /analysis/(job_id)` returns 404 with the fixed error body
exactly when the analysis-results mapping has no entry for the job id, and
otherwise 200 with the stored record unchanged. -/
theorem analysis_route_exact (st : AppState) (jobId : String) :
    (st.analysis_results jobId = none ↔
      get_analysis_results st jobId = (.err "Analysis results not found", 404)) ∧
    (∀ r, st.analysis_results jobId = some r →
      get_analysis_results st jobId = (.ok r, 200)) := by
  refine ⟨⟨fun h => ?_, fun h => ?_⟩, fun r h => ?_⟩
  · simp [get_analysis_results, get_results, h]
  · cases hr : st.analysis_results jobId with
    | none => rfl
    | some r => simp [get_analysis_results, get_results, hr] at h
  · simp [get_analysis_results, get_results, h]

/-- Witness for C9 at concrete states. -/
theorem analysis_route_exact_witness :
    get_analysis_results emptyState "missing" = (.err "Analysis results not found", 404) ∧
    get_analysis_results stResultsW "job1" = (.ok resultsW, 200) :=
  ⟨(analysis_route_exact emptyState "missing").1.mp rfl,
   (analysis_route_exact stResultsW "job1").2 resultsW rfl⟩

/-- C3: when the document processing step raises, the worker thread records
a failed status whose message contains the exception text, invokes the
processing exactly once (no retry), and returns normally (the transition
is a total function into `AppState`, so nothing propagates out of the
thread body). -/
theorem thread_failure_recorded (nlp : NlpModel) (apiKey : Option String)
    (net : NetOutcome) (e filePath jobId : String) (tm : Times) (st : AppState) :
    (∃ pre post : String,
      (threadBody nlp apiKey net (.error e) filePath jobId tm st).1.processing_status jobId =
        some ⟨"failed", pre ++ e ++ post, tm.tFailedOuter⟩) ∧
    (threadBody nlp apiKey net (.error e) filePath jobId tm st).2 = 1 := by
  refine ⟨⟨"Processing failed: ", "", ?_⟩, rfl⟩
  simp [threadBody, processDocument, updateStatus, updMap]

/-! ### Well-formedness of status records (C6) -/

/-- A status record is well formed for the timestamp predicate `P` when its
status is one of the three states written by the code and its timestamp
satisfies `P` (instantiated with the guarantee of
`datetime.now().isoformat()`). -/
def GoodStatusRecord (P : String → Prop) (r : StatusRecord) : Prop :=
  (r.status = "processing" ∨ r.status = "completed" ∨ r.status = "failed") ∧
    P r.timestamp

/-- All timestamps the clock oracle hands to one worker run satisfy `P`. -/
def GoodTimes (P : String → Prop) (tm : Times) : Prop :=
  P tm.tProcessing ∧ P tm.tCompleted ∧ P tm.tFailedInner ∧ P tm.tFailedOuter

/-- C6: every record the worker run writes into the processing-status
mapping has exactly the three fields status, message, timestamp (the field
list of the rendered record is always those three keys), its status is one
of processing, completed, failed, and its timestamp is a clock value; the
shape is preserved from any state already satisfying it. -/
theorem status_records_wellformed (P : String → Prop) (nlp : NlpModel)
    (apiKey : Option String) (net : NetOutcome)
    (docResult : Except String (List String)) (filePath jobId : String)
    (tm : Times) (st : AppState)
    (hTm : GoodTimes P tm)
    (hSt : ∀ j r, st.processing_status j = some r → GoodStatusRecord P r) :
    (∀ j r,
      (threadBody nlp apiKey net docResult filePath jobId tm st).1.processing_status j =
        some r → GoodStatusRecord P r) ∧
    (∀ r : StatusRecord,
      (statusFields r).map Prod.fst = ["status", "message", "timestamp"]) := by
  refine ⟨?_, fun r => rfl⟩
  intro j r h
  by_cases hj : j = jobId
  · subst hj
    cases docResult with
    | error e =>
      simp [threadBody, processDocument, updateStatus, updMap] at h
      rw [← h]
      exact ⟨Or.inr (Or.inr rfl), hTm.2.2.2⟩
    | ok texts =>
      simp [threadBody, processDocument, updateStatus, updMap] at h
      rw [← h]
      exact ⟨Or.inr (Or.inl rfl), hTm.2.1⟩
  · cases docResult with
    | error e =>
      simp [threadBody, processDocument, updateStatus, updMap, hj] at h
      exact hSt j r h
    | ok texts =>
      simp [threadBody, processDocument, updateStatus, updMap, hj] at h
      exact hSt j r h

/-- Witness for C6: a run on the empty state with the constant clock `"T"`
leaves only well-formed records, checked at the job entry it wrote. -/
theorem status_records_wellformed_witness :
    GoodTimes Pw tmW ∧ GoodStatusRecord Pw ⟨"completed", "Analysis completed", "T"⟩ :=
  ⟨⟨rfl, rfl, rfl, rfl⟩,
   (status_records_wellformed Pw nlpW none NetOutcome.timeout
      (.ok ["hello world"]) "f.docx" "job1" tmW emptyState
      ⟨rfl, rfl, rfl, rfl⟩ (fun _ _ h => Option.noConfusion h)).1
    "job1" ⟨"completed", "Analysis completed", "T"⟩ rfl⟩

/-! ### The paragraph pipeline (C1) -/

/-- The analysis of a single paragraph carries the word count, readability,
and entities of its own text, and a passive-voice comment whenever at
least one `nsubjpass` token is detected. -/
theorem analyzeSingleParagraph_props (nlp : NlpModel) (t : String) (j : Int) :
    (analyzeSingleParagraph nlp t j).word_count =
      pyWordCount (analyzeSingleParagraph nlp t j).text ∧
    (analyzeSingleParagraph nlp t j).readability =
      nlp.flesch (analyzeSingleParagraph nlp t j).text ∧
    (analyzeSingleParagraph nlp t j).entities =
      nlp.ents (analyzeSingleParagraph nlp t j).text ∧
    (0 < passiveCountOf nlp (analyzeSingleParagraph nlp t j).text →
      passiveComment (passiveCountOf nlp (analyzeSingleParagraph nlp t j).text) ∈
        (analyzeSingleParagraph nlp t j).comments) := by
  refine ⟨rfl, rfl, rfl, fun h => ?_⟩
  have h' : 0 < passiveCountOf nlp t := h
  have hmem : passiveComment (passiveCountOf nlp t) ∈
      (if 0 < passiveCountOf nlp t then [passiveComment (passiveCountOf nlp t)] else []) := by
    rw [if_pos h']
    exact List.mem_singleton_self _
  exact List.mem_append_right _ hmem

/-- Length of the filtered enumeration loop of `_analyze_paragraphs`. -/
theorem analyzeParagraphsFrom_length (nlp : NlpModel) (texts : List String) :
    ∀ i, (analyzeParagraphsFrom nlp i texts).length =
      (texts.filter pyStripTruthy).length := by
  induction texts with
  | nil => intro i; rfl
  | cons t ts ih =>
    intro i
    by_cases h : pyStripTruthy t
    · simp [analyzeParagraphsFrom, h, List.filter_cons, ih]
    · simp [analyzeParagraphsFrom, h, List.filter_cons, ih]

/-- Every record the enumeration loop produces is the analysis of some
paragraph text at some index. -/
theorem analyzeParagraphsFrom_shape (nlp : NlpModel) (texts : List String) :
    ∀ i, ∀ a ∈ analyzeParagraphsFrom nlp i texts,
      ∃ t j, a = analyzeSingleParagraph nlp t j := by
  induction texts with
  | nil => intro i a ha; exact absurd ha (List.not_mem_nil a)
  | cons t ts ih =>
    intro i a ha
    by_cases h : pyStripTruthy t
    · rw [analyzeParagraphsFrom, if_pos h] at ha
      rcases List.mem_cons.mp ha with h1 | h2
      · exact ⟨t, (i : Int), h1⟩
      · exact ih (i + 1) a h2
    · rw [analyzeParagraphsFrom, if_neg h] at ha
      exact ih (i + 1) a ha

/-- C1 as stated is false: blank paragraphs are skipped, so a document with
a whitespace-only paragraph yields fewer analysis records than paragraphs. -/
theorem one_record_per_paragraph_false :
    ¬ ((analyzeParagraphs nlpW ["", "hello world"]).length =
        (["", "hello world"] : List String).length) := by
  decide

/-- C1 amended: the pipeline produces one paragraph-analysis record per
paragraph whose text contains a non-whitespace character (whitespace-only
paragraphs are skipped), and each record carries the word count of its
text (number of whitespace-separated tokens), its readability score, its
entity list, and a passive-voice comment whenever at least one token with
dependency `nsubjpass` is detected. -/
theorem paragraph_pipeline_amended (nlp : NlpModel) (texts : List String) :
    (analyzeParagraphs nlp texts).length = (texts.filter pyStripTruthy).length ∧
    ∀ a ∈ analyzeParagraphs nlp texts,
      a.word_count = pyWordCount a.text ∧
      a.readability = nlp.flesch a.text ∧
      a.entities = nlp.ents a.text ∧
      (0 < passiveCountOf nlp a.text →
        passiveComment (passiveCountOf nlp a.text) ∈ a.comments) := by
  refine ⟨analyzeParagraphsFrom_length nlp texts 0, fun a ha => ?_⟩
  obtain ⟨t, j, rfl⟩ := analyzeParagraphsFrom_shape nlp texts 0 a ha
  exact analyzeSingleParagraph_props nlp t j

/-- Witness for the amended C1 on a concrete two-paragraph document, one
paragraph blank. -/
theorem paragraph_pipeline_amended_witness :
    (analyzeParagraphs nlpW ["", "hello world"]).length =
      ((["", "hello world"] : List String).filter pyStripTruthy).length ∧
    ((analyzeSingleParagraph nlpW "hello world" 1).word_count =
       pyWordCount (analyzeSingleParagraph nlpW "hello world" 1).text ∧
     (analyzeSingleParagraph nlpW "hello world" 1).readability =
       nlpW.flesch (analyzeSingleParagraph nlpW "hello world" 1).text ∧
     (analyzeSingleParagraph nlpW "hello world" 1).entities =
       nlpW.ents (analyzeSingleParagraph nlpW "hello world" 1).text ∧
     (0 < passiveCountOf nlpW (analyzeSingleParagraph nlpW "hello world" 1).text →
       passiveComment
           (passiveCountOf nlpW (analyzeSingleParagraph nlpW "hello world" 1).text) ∈
         (analyzeSingleParagraph nlpW "hello world" 1).comments)) :=
  ⟨(paragraph_pipeline_amended nlpW ["", "hello world"]).1,
   (paragraph_pipeline_amended nlpW ["", "hello world"]).2
     (analyzeSingleParagraph nlpW "hello world" 1) (by decide)⟩

/-! ### Upload extension check (C5) -/

/-- When `afterLastDot` yields a remainder, a dot followed by that remainder
is a suffix of the list. -/
theorem afterLastDot_suffix : ∀ (l r : List Char), afterLastDot l = some r →
    ('.' :: r) <:+ l
  | [], r, h => by simp [afterLastDot] at h
  | c :: cs, r, h => by
    simp only [afterLastDot] at h
    cases hc : afterLastDot cs with
    | some r2 =>
      rw [hc] at h
      obtain rfl : r2 = r := by simpa using h
      exact (afterLastDot_suffix cs _ hc).trans (List.suffix_cons c cs)
    | none =>
      rw [hc] at h
      by_cases hdot : c = '.'
      · subst hdot
        obtain rfl : cs = r := by simpa using h
        exact List.suffix_refl _
      · simp [hdot] at h

/-- A filename accepted by `allowed_file` ends, case-insensitively, in
`.docx`. -/
theorem allowed_file_suffix (f : String) (h : allowed_file f = true) :
    ".docx".data <:+ (pyLower f).data := by
  unfold allowed_file at h
  cases hd : afterLastDot f.data with
  | none => rw [hd] at h; simp at h
  | some ext =>
    rw [hd] at h
    have hext : ext.map Char.toLower = "docx".data := of_decide_eq_true h
    have hsuf := (afterLastDot_suffix f.data ext hd).map Char.toLower
    have h2 : ('.' :: ext).map Char.toLower = ".docx".data := by
      rw [List.map_cons, hext]
      decide
    rw [h2] at hsuf
    exact hsuf

/-- C5: a request with a non-empty filename that does not end
case-insensitively in `.docx` (including filenames with no extension) is
answered with HTTP 400 and the fixed error body, and neither generates a
job id nor starts processing. -/
theorem invalid_extension_rejected (f : String) (hne : f ≠ "")
    (hsuf : ¬ (".docx".data <:+ (pyLower f).data)) :
    upload_document (some f) =
      ⟨400, some "Invalid file type. Only .docx files are allowed.", false, false⟩ := by
  have hall : allowed_file f = false := by
    by_contra hc
    exact hsuf (allowed_file_suffix f (by simpa using hc))
  simp [upload_document, hne, hall]

/-- Witness for C5 on the filename `report.pdf`. -/
theorem invalid_extension_rejected_witness :
    ("report.pdf" : String) ≠ "" ∧
    ¬ (".docx".data <:+ (pyLower "report.pdf").data) ∧
    upload_document (some "report.pdf") =
      ⟨400, some "Invalid file type. Only .docx files are allowed.", false, false⟩ :=
  ⟨by decide, by decide,
   invalid_extension_rejected "report.pdf" (by decide) (by decide)⟩

/-! ### Optional third-party step (C7) -/

/-- C7: with no configured Dify API key, `analyze_document_with_dify`
performs zero network requests and returns the fixed error record, and the
worker run still stores a completed results record whose `dify_analysis`
field is that error record and whose analyses are those of the document;
the job status ends at completed. -/
theorem dify_optional (apiKey : Option String) (net : NetOutcome) (doc : Results)
    (nlp : NlpModel) (texts : List String) (filePath jobId : String)
    (tm : Times) (st : AppState)
    (hkey : isConfigured apiKey = false) :
    analyzeDocumentWithDify apiKey net doc = (difyNotConfigured, 0) ∧
    (threadBody nlp apiKey net (.ok texts) filePath jobId tm st).1.analysis_results jobId =
      some { job_id := jobId
             file_path := filePath
             paragraph_analyses := analyzeParagraphs nlp texts
             overall_analysis := generateOverallAnalysis (analyzeParagraphs nlp texts)
             status := "completed"
             created_at := tm.tCreated
             dify_analysis := some difyNotConfigured } ∧
    (threadBody nlp apiKey net (.ok texts) filePath jobId tm st).1.processing_status jobId =
      some ⟨"completed", "Analysis completed", tm.tCompleted⟩ := by
  refine ⟨by simp [analyzeDocumentWithDify, hkey], ?_, ?_⟩
  · simp [threadBody, processDocument, analyzeDocumentWithDify, hkey, updateStatus, updMap]
  · simp [threadBody, processDocument, updateStatus, updMap]

/-- Witness for C7: a run with no API key on the empty state. -/
theorem dify_optional_witness :
    isConfigured none = false ∧
    (analyzeDocumentWithDify none NetOutcome.timeout resultsW = (difyNotConfigured, 0) ∧
     (threadBody nlpW none NetOutcome.timeout (.ok ["hello world"]) "f.docx" "job1" tmW
        emptyState).1.analysis_results "job1" =
       some { job_id := "job1"
              file_path := "f.docx"
              paragraph_analyses := analyzeParagraphs nlpW ["hello world"]
              overall_analysis :=
                generateOverallAnalysis (analyzeParagraphs nlpW ["hello world"])
              status := "completed"
              created_at := "T"
              dify_analysis := some difyNotConfigured } ∧
     (threadBody nlpW none NetOutcome.timeout (.ok ["hello world"]) "f.docx" "job1" tmW
        emptyState).1.processing_status "job1" =
       some ⟨"completed", "Analysis completed", "T"⟩) :=
  ⟨rfl,
   dify_optional none NetOutcome.timeout resultsW nlpW ["hello world"] "f.docx" "job1"
     tmW emptyState rfl⟩

/-! ### Negative paragraph index (C8) -/

/-- C8: a `POST /api/update-paragraph` request with `paragraph_id = -1`
against stored results with two paragraph analyses passes the bounds check
`paragraph_id < len(paragraph_analyses)`, mutates the last list element
(Python negative indexing), and returns success, instead of rejecting the
out-of-range id with 400. -/
theorem negative_paragraph_id_accepted :
    ((-1 : Int) < (resultsW.paragraph_analyses.length : Int)) ∧
    (update_paragraph nlpW stResultsW (some (-1)) "replacement text" "job1").1 =
      ⟨200, true, none⟩ ∧
    (update_paragraph nlpW stResultsW (some (-1)) "replacement text" "job1").1.httpStatus
      ≠ 400 ∧
    (update_paragraph nlpW stResultsW (some (-1)) "replacement text" "job1").2.analysis_results
        "job1" =
      some { resultsW with
             paragraph_analyses :=
               [paW0, analyzeSingleParagraph nlpW "replacement text" (-1)] } := by
  refine ⟨by decide, rfl, by decide, rfl⟩

end MindDoc
